import Mathlib

/-!
Verification development for the HD Avatar Creator repository.

The repository is a browser-based avatar customization tool.  Its
algorithmic core is:

* the settings model and its partial-merge update operations
  (`App.tsx`, shipped here as `src/unnamed/part_000`);
* the preset catalogs (`AvatarPresets`, `src/unnamed/part_002`, and
  `BodyPresets`, `src/unnamed/part_004`);
* the ML-suggestion merge (`src/src/components/AvatarML.tsx`);
* two parametric mesh builders (`AvatarMesh` in
  `src/src/components/Avatar3D.tsx` and `RealisticAvatarMesh` in
  `src/src/components/GLBAvatarViewer.tsx`) together with a 2D fallback
  (`Avatar2DFallback`);
* the procedural texture synthesizer
  (`src/src/components/TextureEnhancer.tsx`);
* the GLB file-intake validation (`GLBUploader`,
  `src/unnamed/part_001`).

Every definition below is a direct transcription of the corresponding
TypeScript.  JavaScript numbers are modelled as rationals (all constants
in the sources are decimal literals and every operation used is exact on
rationals); slider/preset values are integers.  `Math.random()` draws and
the sine/cosine vein pattern of the texture synthesizer are passed in as
explicit parameters, so the functions stay pure and the theorems
quantify over every realization.
-/

/-- The `gender` union type `'male' | 'female' | 'non-binary'`. -/
inductive Gender where
  | male
  | female
  | nonBinary
deriving DecidableEq, Repr

/-- The `AvatarSettings` record (App.tsx lines 49-63).  Numeric fields are
integers: sliders use `step={1}`, presets store integer literals and the
ML merge rounds before merging. -/
structure AvatarSettings where
  gender : Gender
  height : ℤ
  muscle : ℤ
  bodyFat : ℤ
  shoulderWidth : ℤ
  waistSize : ℤ
  skinTone : ℤ
  facialStructure : ℤ
  eyeSize : ℤ
  noseSize : ℤ
  mouthSize : ℤ
  hairStyle : ℤ
  hairColor : ℤ
deriving DecidableEq, Repr

/-- Keys of `AvatarSettings`, for the dynamic-key update
`{ ...prev, [key]: value }` of `updateSetting` (App.tsx lines 234-236). -/
inductive SettingKey where
  | gender
  | height
  | muscle
  | bodyFat
  | shoulderWidth
  | waistSize
  | skinTone
  | facialStructure
  | eyeSize
  | noseSize
  | mouthSize
  | hairStyle
  | hairColor
deriving DecidableEq, Repr

/-- The value type carried by each key: `gender` holds a `Gender`, every
other field a number. -/
@[reducible] def SettingKey.Val : SettingKey → Type
  | .gender => Gender
  | _ => ℤ

/-- Field lookup, indexed by key. -/
def AvatarSettings.getField (s : AvatarSettings) : (k : SettingKey) → k.Val
  | .gender => s.gender
  | .height => s.height
  | .muscle => s.muscle
  | .bodyFat => s.bodyFat
  | .shoulderWidth => s.shoulderWidth
  | .waistSize => s.waistSize
  | .skinTone => s.skinTone
  | .facialStructure => s.facialStructure
  | .eyeSize => s.eyeSize
  | .noseSize => s.noseSize
  | .mouthSize => s.mouthSize
  | .hairStyle => s.hairStyle
  | .hairColor => s.hairColor

/-- `updateSetting` (App.tsx lines 234-236):
`setAvatarSettings(prev => ({ ...prev, [key]: value }))` — replace the
one named field, keep every other field. -/
def updateSetting (prev : AvatarSettings) : (k : SettingKey) → k.Val → AvatarSettings
  | .gender, v => { prev with gender := v }
  | .height, v => { prev with height := v }
  | .muscle, v => { prev with muscle := v }
  | .bodyFat, v => { prev with bodyFat := v }
  | .shoulderWidth, v => { prev with shoulderWidth := v }
  | .waistSize, v => { prev with waistSize := v }
  | .skinTone, v => { prev with skinTone := v }
  | .facialStructure, v => { prev with facialStructure := v }
  | .eyeSize, v => { prev with eyeSize := v }
  | .noseSize, v => { prev with noseSize := v }
  | .mouthSize, v => { prev with mouthSize := v }
  | .hairStyle, v => { prev with hairStyle := v }
  | .hairColor, v => { prev with hairColor := v }

/-- A `Partial<AvatarSettings>` value: each field is either absent
(`none`) or present with a replacement value. -/
structure SettingsPatch where
  gender : Option Gender := none
  height : Option ℤ := none
  muscle : Option ℤ := none
  bodyFat : Option ℤ := none
  shoulderWidth : Option ℤ := none
  waistSize : Option ℤ := none
  skinTone : Option ℤ := none
  facialStructure : Option ℤ := none
  eyeSize : Option ℤ := none
  noseSize : Option ℤ := none
  mouthSize : Option ℤ := none
  hairStyle : Option ℤ := none
  hairColor : Option ℤ := none
deriving DecidableEq, Repr

/-- Patch lookup, indexed by key. -/
def SettingsPatch.getField (u : SettingsPatch) : (k : SettingKey) → Option k.Val
  | .gender => u.gender
  | .height => u.height
  | .muscle => u.muscle
  | .bodyFat => u.bodyFat
  | .shoulderWidth => u.shoulderWidth
  | .waistSize => u.waistSize
  | .skinTone => u.skinTone
  | .facialStructure => u.facialStructure
  | .eyeSize => u.eyeSize
  | .noseSize => u.noseSize
  | .mouthSize => u.mouthSize
  | .hairStyle => u.hairStyle
  | .hairColor => u.hairColor

/-- `updateMultipleSettings` (App.tsx lines 238-240):
`setAvatarSettings(prev => ({ ...prev, ...updates }))` — fields present
in the patch override, absent fields keep their previous value. -/
def updateMultipleSettings (prev : AvatarSettings) (u : SettingsPatch) : AvatarSettings where
  gender := u.gender.getD prev.gender
  height := u.height.getD prev.height
  muscle := u.muscle.getD prev.muscle
  bodyFat := u.bodyFat.getD prev.bodyFat
  shoulderWidth := u.shoulderWidth.getD prev.shoulderWidth
  waistSize := u.waistSize.getD prev.waistSize
  skinTone := u.skinTone.getD prev.skinTone
  facialStructure := u.facialStructure.getD prev.facialStructure
  eyeSize := u.eyeSize.getD prev.eyeSize
  noseSize := u.noseSize.getD prev.noseSize
  mouthSize := u.mouthSize.getD prev.mouthSize
  hairStyle := u.hairStyle.getD prev.hairStyle
  hairColor := u.hairColor.getD prev.hairColor

/-- `applyPreset` (App.tsx lines 301-305):
`setAvatarSettings(prev => ({ ...prev, ...presetSettings }))`. -/
def applyPreset (prev : AvatarSettings) (presetSettings : SettingsPatch) : AvatarSettings :=
  updateMultipleSettings prev presetSettings

/-- The initial settings (App.tsx lines 85-99, also `resetToDefaults`). -/
def defaultAvatarSettings : AvatarSettings :=
  ⟨Gender.male, 180, 50, 20, 50, 50, 50, 50, 50, 50, 50, 1, 50⟩

/-- The declared ranges of the settings model (spec §3; slider bounds in
App.tsx lines 716-866 and the hair-style buttons `[1, 2, 3, 4]`). -/
def inRange (s : AvatarSettings) : Prop :=
  170 ≤ s.height ∧ s.height ≤ 210 ∧
  0 ≤ s.muscle ∧ s.muscle ≤ 100 ∧
  5 ≤ s.bodyFat ∧ s.bodyFat ≤ 40 ∧
  0 ≤ s.shoulderWidth ∧ s.shoulderWidth ≤ 100 ∧
  0 ≤ s.waistSize ∧ s.waistSize ≤ 100 ∧
  0 ≤ s.skinTone ∧ s.skinTone ≤ 100 ∧
  0 ≤ s.facialStructure ∧ s.facialStructure ≤ 100 ∧
  0 ≤ s.eyeSize ∧ s.eyeSize ≤ 100 ∧
  0 ≤ s.noseSize ∧ s.noseSize ≤ 100 ∧
  0 ≤ s.mouthSize ∧ s.mouthSize ≤ 100 ∧
  0 ≤ s.hairColor ∧ s.hairColor ≤ 100 ∧
  (s.hairStyle = 1 ∨ s.hairStyle = 2 ∨ s.hairStyle = 3 ∨ s.hairStyle = 4)

instance (s : AvatarSettings) : Decidable (inRange s) := by
  unfold inRange; infer_instance

/-- The declared ranges of every field except `height`. -/
def inRangeExceptHeight (s : AvatarSettings) : Prop :=
  0 ≤ s.muscle ∧ s.muscle ≤ 100 ∧
  5 ≤ s.bodyFat ∧ s.bodyFat ≤ 40 ∧
  0 ≤ s.shoulderWidth ∧ s.shoulderWidth ≤ 100 ∧
  0 ≤ s.waistSize ∧ s.waistSize ≤ 100 ∧
  0 ≤ s.skinTone ∧ s.skinTone ≤ 100 ∧
  0 ≤ s.facialStructure ∧ s.facialStructure ≤ 100 ∧
  0 ≤ s.eyeSize ∧ s.eyeSize ≤ 100 ∧
  0 ≤ s.noseSize ∧ s.noseSize ≤ 100 ∧
  0 ≤ s.mouthSize ∧ s.mouthSize ≤ 100 ∧
  0 ≤ s.hairColor ∧ s.hairColor ≤ 100 ∧
  (s.hairStyle = 1 ∨ s.hairStyle = 2 ∨ s.hairStyle = 3 ∨ s.hairStyle = 4)

instance (s : AvatarSettings) : Decidable (inRangeExceptHeight s) := by
  unfold inRangeExceptHeight; infer_instance

/-- `lo ≤ x ≤ hi`, the form of each numeric slider's constraint. -/
def intBetween (lo hi x : ℤ) : Prop := lo ≤ x ∧ x ≤ hi

/-- Membership in the hair-style button set `[1, 2, 3, 4]`. -/
def isHairStyleId (x : ℤ) : Prop := x = 1 ∨ x = 2 ∨ x = 3 ∨ x = 4

/-- Values a single-field update can deliver through the UI: each slider's
`min`/`max` attributes (App.tsx lines 716-866), the `[1, 2, 3, 4]`
hair-style buttons, and the three gender buttons. -/
def validSliderValue : (k : SettingKey) → k.Val → Prop
  | .gender, _ => True
  | .height, v => intBetween 170 210 v
  | .muscle, v => intBetween 0 100 v
  | .bodyFat, v => intBetween 5 40 v
  | .shoulderWidth, v => intBetween 0 100 v
  | .waistSize, v => intBetween 0 100 v
  | .skinTone, v => intBetween 0 100 v
  | .facialStructure, v => intBetween 0 100 v
  | .eyeSize, v => intBetween 0 100 v
  | .noseSize, v => intBetween 0 100 v
  | .mouthSize, v => intBetween 0 100 v
  | .hairStyle, v => isHairStyleId v
  | .hairColor, v => intBetween 0 100 v

instance (k : SettingKey) (v : k.Val) : Decidable (validSliderValue k v) := by
  cases k <;> unfold validSliderValue intBetween isHairStyleId <;> infer_instance

/-- Helper for writing preset patches: a patch that sets every numeric
field (the shape of the preset `settings` objects) and optionally the
gender.  Argument order follows the `AvatarSettings` field order. -/
def fullNumericPatch (g : Option Gender) (h m bf sw ws st fs es ns ms hs hc : ℤ) :
    SettingsPatch :=
  ⟨g, some h, some m, some bf, some sw, some ws, some st, some fs,
   some es, some ns, some ms, some hs, some hc⟩

/-- The six `AvatarPresets` catalog entries (`src/unnamed/part_002`,
`presets.female.{athletic,curvy,muscular}` and
`presets.male.{athletic,bulky,lean}`); these patches include `gender`. -/
def avatarPresetsCatalog : List SettingsPatch :=
  [ fullNumericPatch (some Gender.female) 170 65 18 45 35 50 45 55 45 50 2 30
  , fullNumericPatch (some Gender.female) 165 40 25 40 45 60 50 60 40 55 3 70
  , fullNumericPatch (some Gender.female) 175 80 15 55 30 40 55 50 50 45 1 20
  , fullNumericPatch (some Gender.male) 180 70 12 65 40 45 60 45 55 50 1 25
  , fullNumericPatch (some Gender.male) 190 85 18 75 50 35 70 40 60 45 2 15
  , fullNumericPatch (some Gender.male) 175 55 8 55 35 55 50 50 45 50 3 60 ]

/-- The ten `BodyPresets` catalog entries (`src/unnamed/part_004`,
`bodyPresets`); their `settings` objects carry no `gender` field. -/
def bodyPresetsCatalog : List SettingsPatch :=
  [ fullNumericPatch none 185 95 8 85 35 45 70 50 55 50 2 30
  , fullNumericPatch none 170 75 15 45 30 55 60 65 45 55 3 60
  , fullNumericPatch none 190 70 12 80 40 50 55 50 50 50 1 45
  , fullNumericPatch none 165 85 18 55 35 40 65 55 50 50 2 25
  , fullNumericPatch none 175 45 22 50 50 50 50 50 50 50 2 50
  , fullNumericPatch none 168 35 28 40 25 60 45 60 45 55 4 70
  , fullNumericPatch none 180 25 15 35 35 45 45 55 45 50 1 40
  , fullNumericPatch none 155 30 20 35 35 65 40 70 40 50 3 80
  , fullNumericPatch none 182 55 18 60 45 50 60 50 50 50 2 35
  , fullNumericPatch none 172 50 22 45 40 55 55 55 50 50 2 45 ]

/-- Every preset either catalog can feed into `applyPreset`. -/
def presetCatalog : List SettingsPatch :=
  avatarPresetsCatalog ++ bodyPresetsCatalog

/-- The `petite-female` preset (`src/unnamed/part_004` lines 222-245):
its `height` is 155. -/
def petiteFemalePatch : SettingsPatch :=
  fullNumericPatch none 155 30 20 35 35 65 40 70 40 50 3 80

/-- `Math.round` of JavaScript: round half away from... JavaScript rounds
half up, `Math.round(x) = Math.floor(x + 0.5)`. -/
def jsRound (q : ℚ) : ℤ := ⌊q + 1 / 2⌋

/-- The ML analysis result fields that `applyMLResults`
(AvatarML.tsx lines 108-120) merges into the settings, expressed in terms
of the `Math.random()` draws that produced them (AvatarML.tsx lines
76-95): `eyeSize = random*40+30`, `noseSize = random*40+30`,
`mouthSize = random*40+30`, `facialStructure = random*60+20`,
`estimatedHeight = random*30+165`, `skinTone = random*80+10`,
`musclePotential = random*60+20`; each is passed through `Math.round`. -/
def mlPatch (rEye rNose rMouth rFace rHeight rSkin rMuscle : ℚ) : SettingsPatch :=
  { eyeSize := some (jsRound (rEye * 40 + 30))
    noseSize := some (jsRound (rNose * 40 + 30))
    mouthSize := some (jsRound (rMouth * 40 + 30))
    facialStructure := some (jsRound (rFace * 60 + 20))
    height := some (jsRound (rHeight * 30 + 165))
    skinTone := some (jsRound (rSkin * 80 + 10))
    muscle := some (jsRound (rMuscle * 60 + 20)) }

/-- `applyMLResults` routed through `onSettingsUpdate =
updateMultipleSettings`. -/
def applyMLResults (prev : AvatarSettings)
    (rEye rNose rMouth rFace rHeight rSkin rMuscle : ℚ) : AvatarSettings :=
  updateMultipleSettings prev (mlPatch rEye rNose rMouth rFace rHeight rSkin rMuscle)

theorem jsRound_bounds {a b : ℤ} {q : ℚ} (h1 : (a : ℚ) ≤ q) (h2 : q < (b : ℚ)) :
    a ≤ jsRound q ∧ jsRound q ≤ b := by
  constructor
  · exact Int.le_floor.mpr (by linarith)
  · have hfl : ((⌊q + 1 / 2⌋ : ℤ) : ℚ) ≤ q + 1 / 2 := Int.floor_le _
    have : ((⌊q + 1 / 2⌋ : ℤ) : ℚ) < (b : ℚ) + 1 := by linarith
    exact_mod_cast Int.lt_add_one_iff.mp (by exact_mod_cast this)

/-! ## Colors (three.js `Color.setHSL`)

Both mesh builders derive skin and hair colors through
`new THREE.Color().setHSL(h, s, l)`.  The following transcribes three.js
`MathUtils.euclideanModulo`, `MathUtils.clamp`, `hue2rgb` and
`Color.setHSL`. -/

/-- RGB color with channels in `[0, 1]` (three.js `Color`). -/
structure ColorRGB where
  r : ℚ
  g : ℚ
  b : ℚ
deriving DecidableEq, Repr

/-- three.js `Color.multiplyScalar(s)`: multiply every channel. -/
def ColorRGB.multiplyScalar (c : ColorRGB) (f : ℚ) : ColorRGB :=
  ⟨c.r * f, c.g * f, c.b * f⟩

/-- three.js `MathUtils.euclideanModulo(n, m) = ((n % m) + m) % m`, which
for positive `m` is `n - m * floor(n / m)`. -/
def euclideanModulo (n m : ℚ) : ℚ := n - m * ⌊n / m⌋

/-- three.js `MathUtils.clamp(value, min, max)`. -/
def clampQ (value lo hi : ℚ) : ℚ := max lo (min hi value)

/-- three.js `hue2rgb(p, q, t)` helper of `Color.setHSL`. -/
def threeHue2rgb (p q t : ℚ) : ℚ :=
  let t := if t < 0 then t + 1 else t
  let t := if 1 < t then t - 1 else t
  if t < 1 / 6 then p + (q - p) * 6 * t
  else if t < 1 / 2 then q
  else if t < 2 / 3 then p + (q - p) * 6 * (2 / 3 - t)
  else p

/-- three.js `Color.setHSL(h, s, l)`. -/
def colorSetHSL (h s l : ℚ) : ColorRGB :=
  let h := euclideanModulo h 1
  let s := clampQ s 0 1
  let l := clampQ l 0 1
  if s = 0 then ⟨l, l, l⟩
  else
    let p := if l ≤ 1 / 2 then l * (1 + s) else l + s - l * s
    let q := 2 * l - p
    ⟨threeHue2rgb q p (h + 1 / 3), threeHue2rgb q p h, threeHue2rgb q p (h - 1 / 3)⟩

/-- Hex color `#000033` used for the eyes in `AvatarMesh`. -/
def eyeBlue : ColorRGB := ⟨0, 0, 51 / 255⟩

/-- Hex color `#8B2635` used for the mouth in `AvatarMesh`. -/
def mouthRed : ColorRGB := ⟨139 / 255, 38 / 255, 53 / 255⟩

/-- Hex color `#ffffff` (eye sockets in `RealisticAvatarMesh`). -/
def whiteColor : ColorRGB := ⟨1, 1, 1⟩

/-- Hex color `#1a1a2e` (pupils in `RealisticAvatarMesh`). -/
def pupilColor : ColorRGB := ⟨26 / 255, 26 / 255, 46 / 255⟩

/-! ## Scene description

A declarative primitive shape, as handed to the scene-graph renderer: a
geometry kind with its constructor arguments, a local position and
rotation, and a standard material (color, roughness, metalness; three.js
defaults are roughness 1 and metalness 0 when the JSX sets none).
Geometry arguments that are multiples of `Math.PI` (sphere arc
parameters in `RealisticAvatarMesh`) are recorded symbolically as
`RArg.piTimes`. -/

/-- Geometry kinds emitted by the two builders. -/
inductive GeomKind where
  | sphere
  | box
  | cylinder
  | capsule
  | cone
deriving DecidableEq, Repr

/-- A geometry constructor argument: a rational, or a rational multiple
of `Math.PI`. -/
inductive RArg where
  | q (x : ℚ)
  | piTimes (x : ℚ)
deriving DecidableEq, Repr

/-- Shorthand for a plain rational geometry argument. -/
def aq (x : ℚ) : RArg := RArg.q x

/-- One primitive shape of a scene description. -/
structure Shape where
  kind : GeomKind
  args : List RArg
  pos : ℚ × ℚ × ℚ
  rot : ℚ × ℚ × ℚ
  color : ColorRGB
  roughness : ℚ
  metalness : ℚ
deriving DecidableEq, Repr

/-- A scene description: the root group scale (the builders scale the
whole group by `heightScale`) and the ordered shape list. -/
structure SceneDescription where
  groupScale : ℚ
  shapes : List Shape
deriving DecidableEq, Repr

/-! ## `AvatarMesh` (Avatar3D.tsx lines 156-418)

The basic parametric mesh builder.  The `<Text>` height label is not a
primitive shape and is omitted.  Shapes appear in source order; each
definition transcribes one `<mesh>` element (geometry args, `position`,
`rotation`, material color/roughness/metalness). -/

namespace AvatarMesh

/-- `heightScale = settings.height / 180` (line 168). -/
def heightScale (s : AvatarSettings) : ℚ := (s.height : ℚ) / 180

/-- `muscleScale = 1 + (settings.muscle - 50) * 0.004` (line 169). -/
def muscleScale (s : AvatarSettings) : ℚ := 1 + ((s.muscle : ℚ) - 50) * 0.004

/-- `bodyFatScale = 1 + (settings.bodyFat - 20) * 0.003` (line 170). -/
def bodyFatScale (s : AvatarSettings) : ℚ := 1 + ((s.bodyFat : ℚ) - 20) * 0.003

/-- `shoulderScale = 1 + (settings.shoulderWidth - 50) * 0.003` (line 171). -/
def shoulderScale (s : AvatarSettings) : ℚ := 1 + ((s.shoulderWidth : ℚ) - 50) * 0.003

/-- `waistScale = 1 + (settings.waistSize - 50) * 0.002` (line 172). -/
def waistScale (s : AvatarSettings) : ℚ := 1 + ((s.waistSize : ℚ) - 50) * 0.002

/-- `skinHue = (settings.skinTone / 100) * 0.15` (line 175). -/
def skinHue (s : AvatarSettings) : ℚ := (s.skinTone : ℚ) / 100 * 0.15

/-- `skinSaturation = 0.3 + (settings.skinTone / 100) * 0.4` (line 176). -/
def skinSaturation (s : AvatarSettings) : ℚ := 0.3 + (s.skinTone : ℚ) / 100 * 0.4

/-- `skinLightness = 0.4 + (settings.skinTone / 100) * 0.4` (line 177). -/
def skinLightness (s : AvatarSettings) : ℚ := 0.4 + (s.skinTone : ℚ) / 100 * 0.4

/-- `skinColor = new THREE.Color().setHSL(...)` (line 178). -/
def skinColor (s : AvatarSettings) : ColorRGB :=
  colorSetHSL (skinHue s) (skinSaturation s) (skinLightness s)

/-- `hairHue = (settings.hairColor / 100) * 0.8` (line 181). -/
def hairHue (s : AvatarSettings) : ℚ := (s.hairColor : ℚ) / 100 * 0.8

/-- `hairColor = new THREE.Color().setHSL(hairHue, 0.8, 0.3)` (line 182). -/
def hairColorOf (s : AvatarSettings) : ColorRGB := colorSetHSL (hairHue s) 0.8 0.3

/-- The per-gender multiplier record of this builder (lines 185-189):
`{ shoulderBonus, waistReduction, muscle }` — note it has no
`hipReduction` component. -/
structure GenderMods where
  shoulderBonus : ℚ
  waistReduction : ℚ
  muscle : ℚ
deriving DecidableEq, Repr

/-- `genderMultipliers` (lines 185-189). -/
def genderMultipliers : Gender → GenderMods
  | .male => ⟨1.2, 0.9, 1.1⟩
  | .female => ⟨0.9, 0.8, 0.8⟩
  | .nonBinary => ⟨1.0, 0.85, 0.95⟩

/-- `genderMods = genderMultipliers[settings.gender]` (line 191). -/
def genderMods (s : AvatarSettings) : GenderMods := genderMultipliers s.gender

/-- Head (lines 210-213). -/
def head (s : AvatarSettings) : Shape :=
  ⟨.sphere, [aq (0.12 * (1 + (s.facialStructure : ℚ) * 0.001)), aq 16, aq 16],
   (0, 1.6, 0), (0, 0, 0), skinColor s, 0.8, 0.1⟩

/-- Left eye (lines 216-219). -/
def eyeLeft (s : AvatarSettings) : Shape :=
  ⟨.sphere, [aq (0.01 * (1 + (s.eyeSize : ℚ) * 0.001)), aq 8, aq 8],
   (-0.04, 1.63, 0.08), (0, 0, 0), eyeBlue, 1, 0⟩

/-- Right eye (lines 220-223). -/
def eyeRight (s : AvatarSettings) : Shape :=
  ⟨.sphere, [aq (0.01 * (1 + (s.eyeSize : ℚ) * 0.001)), aq 8, aq 8],
   (0.04, 1.63, 0.08), (0, 0, 0), eyeBlue, 1, 0⟩

/-- Nose (lines 226-229). -/
def nose (s : AvatarSettings) : Shape :=
  ⟨.box, [aq (0.02 * (1 + (s.noseSize : ℚ) * 0.001)), aq 0.04, aq 0.02],
   (0, 1.58, 0.09), (0, 0, 0), skinColor s, 0.8, 0⟩

/-- Mouth (lines 232-235). -/
def mouth (s : AvatarSettings) : Shape :=
  ⟨.box, [aq (0.06 * (1 + (s.mouthSize : ℚ) * 0.001)), aq 0.01, aq 0.01],
   (0, 1.54, 0.08), (0, 0, 0), mouthRed, 1, 0⟩

/-- Hair variant 1 (lines 238-243). -/
def hair1 (s : AvatarSettings) : Shape :=
  ⟨.sphere, [aq 0.13, aq 16, aq 16], (0, 1.7, 0), (0, 0, 0), hairColorOf s, 0.9, 0⟩

/-- Hair variant 2 (lines 244-249). -/
def hair2 (s : AvatarSettings) : Shape :=
  ⟨.box, [aq 0.22, aq 0.15, aq 0.2], (0, 1.7, -0.02), (0, 0, 0), hairColorOf s, 0.9, 0⟩

/-- Hair variant 3 (lines 250-255). -/
def hair3 (s : AvatarSettings) : Shape :=
  ⟨.cylinder, [aq 0.1, aq 0.14, aq 0.2, aq 12], (0, 1.75, 0), (0, 0, 0), hairColorOf s, 0.9, 0⟩

/-- Hair variant 4 (lines 256-261). -/
def hair4 (s : AvatarSettings) : Shape :=
  ⟨.sphere, [aq 0.14, aq 8, aq 8], (0, 1.68, 0), (0, 0, 0), hairColorOf s, 0.95, 0⟩

/-- The four independent hair conditionals
`settings.hairStyle === k && (...)` for k = 1, 2, 3, 4 (lines 238-261). -/
def hairShapes (s : AvatarSettings) : List Shape :=
  (if s.hairStyle = 1 then [hair1 s] else []) ++
  (if s.hairStyle = 2 then [hair2 s] else []) ++
  (if s.hairStyle = 3 then [hair3 s] else []) ++
  (if s.hairStyle = 4 then [hair4 s] else [])

/-- Neck (lines 264-267). -/
def neck (s : AvatarSettings) : Shape :=
  ⟨.cylinder, [aq 0.06, aq 0.08, aq 0.15, aq 12], (0, 1.45, 0), (0, 0, 0), skinColor s, 0.8, 0.1⟩

/-- Torso (lines 270-277): width scaled by the gender `shoulderBonus`. -/
def torso (s : AvatarSettings) : Shape :=
  ⟨.box,
   [aq (0.35 * shoulderScale s * muscleScale s * bodyFatScale s * (genderMods s).shoulderBonus),
    aq 0.6, aq (0.2 * muscleScale s * bodyFatScale s)],
   (0, 1.1, 0), (0, 0, 0), skinColor s, 0.7, 0.1⟩

/-- Left chest-highlight sphere (lines 282-285). -/
def chestLeft (s : AvatarSettings) : Shape :=
  ⟨.sphere, [aq (0.06 * muscleScale s * (genderMods s).muscle), aq 12, aq 12],
   (-0.08, 1.25, 0.08), (0, 0, 0), (skinColor s).multiplyScalar 0.95, 0.6, 0⟩

/-- Right chest-highlight sphere (lines 286-289). -/
def chestRight (s : AvatarSettings) : Shape :=
  ⟨.sphere, [aq (0.06 * muscleScale s * (genderMods s).muscle), aq 12, aq 12],
   (0.08, 1.25, 0.08), (0, 0, 0), (skinColor s).multiplyScalar 0.95, 0.6, 0⟩

/-- Chest muscles conditional `settings.muscle > 30` (lines 280-291). -/
def chestShapes (s : AvatarSettings) : List Shape :=
  if 30 < s.muscle then [chestLeft s, chestRight s] else []

/-- Upper ab-definition box (lines 296-299). -/
def absUpper (s : AvatarSettings) : Shape :=
  ⟨.box, [aq 0.12, aq 0.08, aq 0.02],
   (0, 1.05, 0.09), (0, 0, 0), (skinColor s).multiplyScalar 0.92, 0.5, 0⟩

/-- Lower ab-definition box (lines 300-303). -/
def absLower (s : AvatarSettings) : Shape :=
  ⟨.box, [aq 0.12, aq 0.08, aq 0.02],
   (0, 0.95, 0.09), (0, 0, 0), (skinColor s).multiplyScalar 0.92, 0.5, 0⟩

/-- Abs conditional `settings.muscle > 40 && settings.bodyFat < 25`
(lines 294-305). -/
def absShapes (s : AvatarSettings) : List Shape :=
  if 40 < s.muscle ∧ s.bodyFat < 25 then [absUpper s, absLower s] else []

/-- Waist (lines 308-316): top radius scaled by the gender
`waistReduction`; the bottom radius and height carry no gender factor. -/
def waist (s : AvatarSettings) : Shape :=
  ⟨.cylinder,
   [aq (0.15 * waistScale s * bodyFatScale s * (genderMods s).waistReduction),
    aq (0.18 * bodyFatScale s), aq 0.25, aq 12],
   (0, 0.75, 0), (0, 0, 0), skinColor s, 0.7, 0.1⟩

/-- Left arm (lines 319-322). -/
def armLeft (s : AvatarSettings) : Shape :=
  ⟨.cylinder, [aq (0.05 * muscleScale s), aq (0.06 * muscleScale s), aq 0.5, aq 8],
   (-0.25 * shoulderScale s * (genderMods s).shoulderBonus, 1.2, 0), (0, 0, 0.2),
   skinColor s, 0.8, 0⟩

/-- Right arm (lines 323-326). -/
def armRight (s : AvatarSettings) : Shape :=
  ⟨.cylinder, [aq (0.05 * muscleScale s), aq (0.06 * muscleScale s), aq 0.5, aq 8],
   (0.25 * shoulderScale s * (genderMods s).shoulderBonus, 1.2, 0), (0, 0, -0.2),
   skinColor s, 0.8, 0⟩

/-- Left bicep (lines 331-334). -/
def bicepLeft (s : AvatarSettings) : Shape :=
  ⟨.sphere, [aq (0.04 * muscleScale s * (genderMods s).muscle), aq 8, aq 8],
   (-0.25 * shoulderScale s * (genderMods s).shoulderBonus, 1.3, 0), (0, 0, 0),
   (skinColor s).multiplyScalar 0.94, 0.6, 0⟩

/-- Right bicep (lines 335-338). -/
def bicepRight (s : AvatarSettings) : Shape :=
  ⟨.sphere, [aq (0.04 * muscleScale s * (genderMods s).muscle), aq 8, aq 8],
   (0.25 * shoulderScale s * (genderMods s).shoulderBonus, 1.3, 0), (0, 0, 0),
   (skinColor s).multiplyScalar 0.94, 0.6, 0⟩

/-- Biceps conditional `settings.muscle > 50` (lines 329-340). -/
def bicepsShapes (s : AvatarSettings) : List Shape :=
  if 50 < s.muscle then [bicepLeft s, bicepRight s] else []

/-- Left forearm (lines 343-346). -/
def forearmLeft (s : AvatarSettings) : Shape :=
  ⟨.cylinder, [aq (0.04 * muscleScale s), aq (0.05 * muscleScale s), aq 0.4, aq 8],
   (-0.32 * shoulderScale s * (genderMods s).shoulderBonus, 0.85, 0), (0, 0, 0.3),
   skinColor s, 0.8, 0⟩

/-- Right forearm (lines 347-350). -/
def forearmRight (s : AvatarSettings) : Shape :=
  ⟨.cylinder, [aq (0.04 * muscleScale s), aq (0.05 * muscleScale s), aq 0.4, aq 8],
   (0.32 * shoulderScale s * (genderMods s).shoulderBonus, 0.85, 0), (0, 0, -0.3),
   skinColor s, 0.8, 0⟩

/-- Left hand (lines 353-356). -/
def handLeft (s : AvatarSettings) : Shape :=
  ⟨.sphere, [aq 0.04, aq 8, aq 8],
   (-0.36 * shoulderScale s * (genderMods s).shoulderBonus, 0.6, 0), (0, 0, 0),
   skinColor s, 0.9, 0⟩

/-- Right hand (lines 357-360). -/
def handRight (s : AvatarSettings) : Shape :=
  ⟨.sphere, [aq 0.04, aq 8, aq 8],
   (0.36 * shoulderScale s * (genderMods s).shoulderBonus, 0.6, 0), (0, 0, 0),
   skinColor s, 0.9, 0⟩

/-- Left leg (lines 363-366). -/
def legLeft (s : AvatarSettings) : Shape :=
  ⟨.cylinder,
   [aq (0.08 * muscleScale s), aq (0.1 * muscleScale s * bodyFatScale s), aq 0.7, aq 8],
   (-0.12, 0.35, 0), (0, 0, 0), skinColor s, 0.8, 0⟩

/-- Right leg (lines 367-370). -/
def legRight (s : AvatarSettings) : Shape :=
  ⟨.cylinder,
   [aq (0.08 * muscleScale s), aq (0.1 * muscleScale s * bodyFatScale s), aq 0.7, aq 8],
   (0.12, 0.35, 0), (0, 0, 0), skinColor s, 0.8, 0⟩

/-- Left quadricep (lines 375-378). -/
def quadLeft (s : AvatarSettings) : Shape :=
  ⟨.box, [aq (0.08 * muscleScale s), aq 0.25, aq 0.04],
   (-0.12, 0.55, 0.06), (0, 0, 0), (skinColor s).multiplyScalar 0.93, 0.6, 0⟩

/-- Right quadricep (lines 379-382). -/
def quadRight (s : AvatarSettings) : Shape :=
  ⟨.box, [aq (0.08 * muscleScale s), aq 0.25, aq 0.04],
   (0.12, 0.55, 0.06), (0, 0, 0), (skinColor s).multiplyScalar 0.93, 0.6, 0⟩

/-- Quads conditional `settings.muscle > 45` (lines 373-384). -/
def quadShapes (s : AvatarSettings) : List Shape :=
  if 45 < s.muscle then [quadLeft s, quadRight s] else []

/-- Left calf (lines 387-390). -/
def calfLeft (s : AvatarSettings) : Shape :=
  ⟨.cylinder, [aq (0.06 * muscleScale s), aq (0.07 * muscleScale s), aq 0.4, aq 8],
   (-0.12, -0.15, -0.02), (0, 0, 0), skinColor s, 0.8, 0⟩

/-- Right calf (lines 391-394). -/
def calfRight (s : AvatarSettings) : Shape :=
  ⟨.cylinder, [aq (0.06 * muscleScale s), aq (0.07 * muscleScale s), aq 0.4, aq 8],
   (0.12, -0.15, -0.02), (0, 0, 0), skinColor s, 0.8, 0⟩

/-- Left foot (lines 397-400). -/
def footLeft (s : AvatarSettings) : Shape :=
  ⟨.box, [aq 0.08, aq 0.04, aq 0.2], (-0.12, -0.4, 0.05), (0, 0, 0), skinColor s, 0.9, 0⟩

/-- Right foot (lines 401-404). -/
def footRight (s : AvatarSettings) : Shape :=
  ⟨.box, [aq 0.08, aq 0.04, aq 0.2], (0.12, -0.4, 0.05), (0, 0, 0), skinColor s, 0.9, 0⟩

/-- The shapes emitted before the hair conditionals (head and face). -/
def preHairShapes (s : AvatarSettings) : List Shape :=
  [head s, eyeLeft s, eyeRight s, nose s, mouth s]

/-- The shapes emitted after the hair conditionals (neck to feet,
conditional segments included), in source order. -/
def postHairShapes (s : AvatarSettings) : List Shape :=
  [neck s, torso s] ++ chestShapes s ++ absShapes s ++
  [waist s, armLeft s, armRight s] ++ bicepsShapes s ++
  [forearmLeft s, forearmRight s, handLeft s, handRight s, legLeft s, legRight s] ++
  quadShapes s ++ [calfLeft s, calfRight s, footLeft s, footRight s]

/-- The full ordered shape list of `AvatarMesh`. -/
def shapes (s : AvatarSettings) : List Shape :=
  preHairShapes s ++ hairShapes s ++ postHairShapes s

/-- `build(settings)`: the scene description produced by `AvatarMesh` —
the root group scaled by `heightScale` and the ordered shape list. -/
def scene (s : AvatarSettings) : SceneDescription :=
  ⟨heightScale s, shapes s⟩

end AvatarMesh

/-! ## `Avatar2DFallback` (Avatar3D.tsx lines 56-58)

The degraded 2D schematic fallback recomputes two scale factors from the
same settings. -/

namespace Avatar2DFallback

/-- `heightScale = settings.height / 180` (line 57). -/
def heightScale (s : AvatarSettings) : ℚ := (s.height : ℚ) / 180

/-- `muscleScale = 1 + (settings.muscle - 50) * 0.004` (line 58). -/
def muscleScale (s : AvatarSettings) : ℚ := 1 + ((s.muscle : ℚ) - 50) * 0.004

end Avatar2DFallback

/-! ## `RealisticAvatarMesh` (GLBAvatarViewer.tsx lines 404-687)

The improved parametric mesh builder rendered by `ImprovedAvatar3D`
(which the application mounts).  Its gender table carries the full
four-component tuple `{ shoulderBonus, waistReduction, muscle,
hipReduction }` (lines 433-437).  Group-nested meshes (eyes, abs) are
recorded with group position + child position summed.

The torso and waist/hips `sphereGeometry` elements (lines 535-547 and
576-583) are malformed: their array literals close BEFORE the trailing
`, 16, 16, ...` arguments, so each JSX brace holds a JavaScript comma
(sequence) expression.  The three-element dimension array — the only
place this builder uses `genderMods.hipReduction`,
`genderMods.waistReduction` and the torso's `shoulderBonus`-scaled
width — is evaluated and then discarded, and `args` evaluates to the
final operand of the sequence: `Math.PI` for the torso and `16` for the
hips.  The embedded `torso` and `hips` shapes below record exactly that
final value as the single geometry argument; the written-but-discarded
dimension vectors are kept alongside as `torsoDimsDiscarded` and
`hipsDimsDiscarded` for comparison. -/

namespace RealisticAvatarMesh

/-- `heightScale = settings.height / 180` (line 416). -/
def heightScale (s : AvatarSettings) : ℚ := (s.height : ℚ) / 180

/-- `muscleScale = 1 + (settings.muscle - 50) * 0.004` (line 417). -/
def muscleScale (s : AvatarSettings) : ℚ := 1 + ((s.muscle : ℚ) - 50) * 0.004

/-- `bodyFatScale = 1 + (settings.bodyFat - 20) * 0.003` (line 418). -/
def bodyFatScale (s : AvatarSettings) : ℚ := 1 + ((s.bodyFat : ℚ) - 20) * 0.003

/-- `shoulderScale = 1 + (settings.shoulderWidth - 50) * 0.003` (line 419). -/
def shoulderScale (s : AvatarSettings) : ℚ := 1 + ((s.shoulderWidth : ℚ) - 50) * 0.003

/-- `waistScale = 1 + (settings.waistSize - 50) * 0.002` (line 420). -/
def waistScale (s : AvatarSettings) : ℚ := 1 + ((s.waistSize : ℚ) - 50) * 0.002

/-- Skin color (lines 423-426), same derivation as `AvatarMesh`. -/
def skinColor (s : AvatarSettings) : ColorRGB :=
  colorSetHSL ((s.skinTone : ℚ) / 100 * 0.15)
    (0.3 + (s.skinTone : ℚ) / 100 * 0.4) (0.4 + (s.skinTone : ℚ) / 100 * 0.4)

/-- Hair color (lines 429-430). -/
def hairColorOf (s : AvatarSettings) : ColorRGB :=
  colorSetHSL ((s.hairColor : ℚ) / 100 * 0.8) 0.8 0.3

/-- The four-component per-gender multiplier record (lines 433-437):
`{ shoulderBonus, waistReduction, muscle, hipReduction }`. -/
structure GenderMods where
  shoulderBonus : ℚ
  waistReduction : ℚ
  muscle : ℚ
  hipReduction : ℚ
deriving DecidableEq, Repr

/-- `genderMultipliers` (lines 433-437), the fixed 3-entry table. -/
def genderMultipliers : Gender → GenderMods
  | .male => ⟨1.2, 0.9, 1.1, 0.9⟩
  | .female => ⟨0.9, 0.7, 0.8, 1.1⟩
  | .nonBinary => ⟨1.0, 0.8, 0.95, 1.0⟩

/-- `genderMods = genderMultipliers[settings.gender]` (line 439). -/
def genderMods (s : AvatarSettings) : GenderMods := genderMultipliers s.gender

/-- Head (lines 458-466). -/
def head (s : AvatarSettings) : Shape :=
  ⟨.sphere, [aq (0.11 * (1 + (s.facialStructure : ℚ) * 0.002)), aq 32, aq 32],
   (0, 1.6, 0), (0, 0, 0), skinColor s, 0.7, 0.05⟩

/-- Left eye socket (group at (0, 1.63, 0.08), lines 469-474). -/
def eyeSocketLeft (s : AvatarSettings) : Shape :=
  ⟨.sphere, [aq (0.015 * (1 + (s.eyeSize : ℚ) * 0.002)), aq 16, aq 16],
   (-0.035, 1.63, 0.08), (0, 0, 0), whiteColor, 1, 0⟩

/-- Right eye socket (lines 475-478). -/
def eyeSocketRight (s : AvatarSettings) : Shape :=
  ⟨.sphere, [aq (0.015 * (1 + (s.eyeSize : ℚ) * 0.002)), aq 16, aq 16],
   (0.035, 1.63, 0.08), (0, 0, 0), whiteColor, 1, 0⟩

/-- Left pupil (lines 480-483). -/
def pupilLeft : Shape :=
  ⟨.sphere, [aq 0.008, aq 12, aq 12], (-0.035, 1.63, 0.09), (0, 0, 0), pupilColor, 1, 0⟩

/-- Right pupil (lines 484-487). -/
def pupilRight : Shape :=
  ⟨.sphere, [aq 0.008, aq 12, aq 12], (0.035, 1.63, 0.09), (0, 0, 0), pupilColor, 1, 0⟩

/-- Nose cone (lines 491-494). -/
def nose (s : AvatarSettings) : Shape :=
  ⟨.cone, [aq (0.015 * (1 + (s.noseSize : ℚ) * 0.002)), aq 0.03, aq 8],
   (0, 1.58, 0.09), (0, 0, 0), (skinColor s).multiplyScalar 0.98, 0.8, 0⟩

/-- Mouth (lines 497-500). -/
def mouth (s : AvatarSettings) : Shape :=
  ⟨.sphere,
   [aq (0.025 * (1 + (s.mouthSize : ℚ) * 0.002)), aq 16, aq 8,
    aq 0, .piTimes 2, aq 0, .piTimes 0.5],
   (0, 1.54, 0.08), (0, 0, 0), mouthRed, 0.3, 0⟩

/-- Hair variant 1 (lines 503-508). -/
def hair1 (s : AvatarSettings) : Shape :=
  ⟨.sphere, [aq 0.12, aq 32, aq 32, aq 0, .piTimes 2, aq 0, .piTimes 0.8],
   (0, 1.72, -0.01), (0, 0, 0), hairColorOf s, 0.9, 0⟩

/-- Hair variant 2 (lines 509-514). -/
def hair2 (s : AvatarSettings) : Shape :=
  ⟨.cylinder, [aq 0.11, aq 0.13, aq 0.18, aq 16],
   (0, 1.75, -0.02), (0, 0, 0), hairColorOf s, 0.9, 0⟩

/-- Hair variant 3 (lines 515-520). -/
def hair3 (s : AvatarSettings) : Shape :=
  ⟨.sphere, [aq 0.13, aq 16, aq 16, aq 0, .piTimes 2, aq 0, .piTimes 0.7],
   (0, 1.78, 0), (0, 0, 0), hairColorOf s, 0.95, 0⟩

/-- Hair variant 4 (lines 521-526). -/
def hair4 (s : AvatarSettings) : Shape :=
  ⟨.sphere, [aq 0.14, aq 12, aq 12], (0, 1.7, 0), (0, 0, 0), hairColorOf s, 0.95, 0⟩

/-- The four hair conditionals (lines 503-526). -/
def hairShapes (s : AvatarSettings) : List Shape :=
  (if s.hairStyle = 1 then [hair1 s] else []) ++
  (if s.hairStyle = 2 then [hair2 s] else []) ++
  (if s.hairStyle = 3 then [hair3 s] else []) ++
  (if s.hairStyle = 4 then [hair4 s] else [])

/-- Neck (lines 529-532). -/
def neck (s : AvatarSettings) : Shape :=
  ⟨.cylinder, [aq 0.055, aq 0.065, aq 0.12, aq 16],
   (0, 1.45, 0), (0, 0, 0), skinColor s, 0.7, 0.05⟩

/-- The torso dimension vector written at lines 537-539 —
`[0.18*shoulderScale*muscleScale*bodyFatScale*genderMods.shoulderBonus,
0.32, 0.12*muscleScale*bodyFatScale]`.  Because the array literal closes
before `, 16, 16, 0, Math.PI*2, 0, Math.PI`, this vector is the first
operand of a comma expression: it is evaluated and discarded, and never
reaches the emitted geometry. -/
def torsoDimsDiscarded (s : AvatarSettings) : List ℚ :=
  [0.18 * shoulderScale s * muscleScale s * bodyFatScale s * (genderMods s).shoulderBonus,
   0.32, 0.12 * muscleScale s * bodyFatScale s]

/-- Torso (lines 535-547).  The JSX brace holds the comma expression
`[...dims...], 16, 16, 0, Math.PI * 2, 0, Math.PI`, which evaluates to
its final operand, so the geometry receives the single value `Math.PI`
instead of the written dimension vector (`torsoDimsDiscarded`). -/
def torso (s : AvatarSettings) : Shape :=
  ⟨.sphere, [RArg.piTimes 1], (0, 1.1, 0), (0, 0, 0), skinColor s, 0.6, 0.05⟩

/-- Left chest-definition half-sphere (lines 552-555). -/
def chestLeft (s : AvatarSettings) : Shape :=
  ⟨.sphere,
   [aq (0.05 * muscleScale s * (genderMods s).muscle), aq 16, aq 16,
    aq 0, .piTimes 2, aq 0, .piTimes 0.6],
   (-0.07, 1.25, 0.08), (0, 0, 0), (skinColor s).multiplyScalar 0.96, 0.5, 0⟩

/-- Right chest-definition half-sphere (lines 556-559). -/
def chestRight (s : AvatarSettings) : Shape :=
  ⟨.sphere,
   [aq (0.05 * muscleScale s * (genderMods s).muscle), aq 16, aq 16,
    aq 0, .piTimes 2, aq 0, .piTimes 0.6],
   (0.07, 1.25, 0.08), (0, 0, 0), (skinColor s).multiplyScalar 0.96, 0.5, 0⟩

/-- Chest conditional `settings.muscle > 30` (lines 550-561). -/
def chestShapes (s : AvatarSettings) : List Shape :=
  if 30 < s.muscle then [chestLeft s, chestRight s] else []

/-- One abdominal half-sphere of the abs group at (0, 1.0, 0.09) with the
given `yOffset` (lines 565-571). -/
def absShape (s : AvatarSettings) (yOffset : ℚ) : Shape :=
  ⟨.sphere, [aq 0.04, aq 12, aq 8, aq 0, .piTimes 2, aq 0, .piTimes 0.5],
   (0, 1 + yOffset, 0.09), (0, 0, 0), (skinColor s).multiplyScalar 0.94, 0.4, 0⟩

/-- Abs conditional `muscle > 40 && bodyFat < 25`, three half-spheres at
offsets `[0, -0.08, -0.16]` (lines 564-573). -/
def absShapes (s : AvatarSettings) : List Shape :=
  if 40 < s.muscle ∧ s.bodyFat < 25 then
    [absShape s 0, absShape s (-0.08), absShape s (-0.16)] else []

/-- The waist/hips dimension vector written at lines 578-580 —
`[0.14*waistScale*bodyFatScale*genderMods.waistReduction,
0.16*bodyFatScale*genderMods.hipReduction, 0.10*bodyFatScale]` — the
hip (second) entry scaled by the `hipReduction` gender component.
Because the array literal closes before `, 16, 16`, this vector is the
first operand of a comma expression: it is evaluated and discarded, and
never reaches the emitted geometry. -/
def hipsDimsDiscarded (s : AvatarSettings) : List ℚ :=
  [0.14 * waistScale s * bodyFatScale s * (genderMods s).waistReduction,
   0.16 * bodyFatScale s * (genderMods s).hipReduction,
   0.10 * bodyFatScale s]

/-- Waist/hips (lines 576-583).  The JSX brace holds the comma
expression `[...dims...], 16, 16`, which evaluates to its final
operand, so the geometry receives the single value `16` instead of the
written dimension vector (`hipsDimsDiscarded`). -/
def hips (s : AvatarSettings) : Shape :=
  ⟨.sphere, [aq 16], (0, 0.75, 0), (0, 0, 0), skinColor s, 0.6, 0.05⟩

/-- Left upper arm (lines 587-590). -/
def upperArmLeft (s : AvatarSettings) : Shape :=
  ⟨.capsule, [aq (0.04 * muscleScale s), aq 0.25, aq 8, aq 16],
   (-0.22 * shoulderScale s * (genderMods s).shoulderBonus, 1.15, 0), (0, 0, 0.15),
   skinColor s, 0.7, 0⟩

/-- Right upper arm (lines 591-594). -/
def upperArmRight (s : AvatarSettings) : Shape :=
  ⟨.capsule, [aq (0.04 * muscleScale s), aq 0.25, aq 8, aq 16],
   (0.22 * shoulderScale s * (genderMods s).shoulderBonus, 1.15, 0), (0, 0, -0.15),
   skinColor s, 0.7, 0⟩

/-- Left bicep (lines 599-602). -/
def bicepLeft (s : AvatarSettings) : Shape :=
  ⟨.sphere, [aq (0.035 * muscleScale s * (genderMods s).muscle), aq 12, aq 12],
   (-0.22 * shoulderScale s * (genderMods s).shoulderBonus, 1.25, 0), (0, 0, 0),
   (skinColor s).multiplyScalar 0.95, 0.5, 0⟩

/-- Right bicep (lines 603-606). -/
def bicepRight (s : AvatarSettings) : Shape :=
  ⟨.sphere, [aq (0.035 * muscleScale s * (genderMods s).muscle), aq 12, aq 12],
   (0.22 * shoulderScale s * (genderMods s).shoulderBonus, 1.25, 0), (0, 0, 0),
   (skinColor s).multiplyScalar 0.95, 0.5, 0⟩

/-- Biceps conditional `settings.muscle > 50` (lines 597-608). -/
def bicepsShapes (s : AvatarSettings) : List Shape :=
  if 50 < s.muscle then [bicepLeft s, bicepRight s] else []

/-- Left forearm (lines 611-614). -/
def forearmLeft (s : AvatarSettings) : Shape :=
  ⟨.capsule, [aq (0.035 * muscleScale s), aq 0.22, aq 8, aq 16],
   (-0.28 * shoulderScale s * (genderMods s).shoulderBonus, 0.85, 0), (0, 0, 0.25),
   skinColor s, 0.7, 0⟩

/-- Right forearm (lines 615-618). -/
def forearmRight (s : AvatarSettings) : Shape :=
  ⟨.capsule, [aq (0.035 * muscleScale s), aq 0.22, aq 8, aq 16],
   (0.28 * shoulderScale s * (genderMods s).shoulderBonus, 0.85, 0), (0, 0, -0.25),
   skinColor s, 0.7, 0⟩

/-- Left hand (lines 621-624). -/
def handLeft (s : AvatarSettings) : Shape :=
  ⟨.sphere, [aq 0.035, aq 12, aq 12],
   (-0.32 * shoulderScale s * (genderMods s).shoulderBonus, 0.65, 0), (0, 0, 0),
   skinColor s, 0.8, 0⟩

/-- Right hand (lines 625-628). -/
def handRight (s : AvatarSettings) : Shape :=
  ⟨.sphere, [aq 0.035, aq 12, aq 12],
   (0.32 * shoulderScale s * (genderMods s).shoulderBonus, 0.65, 0), (0, 0, 0),
   skinColor s, 0.8, 0⟩

/-- Left thigh (lines 632-635). -/
def thighLeft (s : AvatarSettings) : Shape :=
  ⟨.capsule, [aq (0.06 * muscleScale s), aq 0.35, aq 8, aq 16],
   (-0.11, 0.4, 0), (0, 0, 0), skinColor s, 0.7, 0⟩

/-- Right thigh (lines 636-639). -/
def thighRight (s : AvatarSettings) : Shape :=
  ⟨.capsule, [aq (0.06 * muscleScale s), aq 0.35, aq 8, aq 16],
   (0.11, 0.4, 0), (0, 0, 0), skinColor s, 0.7, 0⟩

/-- Left quadricep (lines 644-647). -/
def quadLeft (s : AvatarSettings) : Shape :=
  ⟨.sphere, [aq (0.04 * muscleScale s), aq 12, aq 8, aq 0, .piTimes 2, aq 0, .piTimes 0.6],
   (-0.11, 0.5, 0.05), (0, 0, 0), (skinColor s).multiplyScalar 0.94, 0.5, 0⟩

/-- Right quadricep (lines 648-651). -/
def quadRight (s : AvatarSettings) : Shape :=
  ⟨.sphere, [aq (0.04 * muscleScale s), aq 12, aq 8, aq 0, .piTimes 2, aq 0, .piTimes 0.6],
   (0.11, 0.5, 0.05), (0, 0, 0), (skinColor s).multiplyScalar 0.94, 0.5, 0⟩

/-- Quads conditional `settings.muscle > 45` (lines 642-653). -/
def quadShapes (s : AvatarSettings) : List Shape :=
  if 45 < s.muscle then [quadLeft s, quadRight s] else []

/-- Left calf (lines 656-659). -/
def calfLeft (s : AvatarSettings) : Shape :=
  ⟨.capsule, [aq (0.045 * muscleScale s), aq 0.25, aq 8, aq 16],
   (-0.11, 0.05, -0.01), (0, 0, 0), skinColor s, 0.7, 0⟩

/-- Right calf (lines 660-663). -/
def calfRight (s : AvatarSettings) : Shape :=
  ⟨.capsule, [aq (0.045 * muscleScale s), aq 0.25, aq 8, aq 16],
   (0.11, 0.05, -0.01), (0, 0, 0), skinColor s, 0.7, 0⟩

/-- Left foot (lines 666-669). -/
def footLeft (s : AvatarSettings) : Shape :=
  ⟨.sphere, [aq 0.04, aq 12, aq 8, aq 0, .piTimes 2, aq 0, .piTimes 0.7],
   (-0.11, -0.15, 0.04), (0, 0, 0), skinColor s, 0.8, 0⟩

/-- Right foot (lines 670-673). -/
def footRight (s : AvatarSettings) : Shape :=
  ⟨.sphere, [aq 0.04, aq 12, aq 8, aq 0, .piTimes 2, aq 0, .piTimes 0.7],
   (0.11, -0.15, 0.04), (0, 0, 0), skinColor s, 0.8, 0⟩

/-- The full ordered shape list of `RealisticAvatarMesh`. -/
def shapes (s : AvatarSettings) : List Shape :=
  [head s, eyeSocketLeft s, eyeSocketRight s, pupilLeft, pupilRight, nose s, mouth s] ++
  hairShapes s ++ [neck s, torso s] ++ chestShapes s ++ absShapes s ++
  [hips s, upperArmLeft s, upperArmRight s] ++ bicepsShapes s ++
  [forearmLeft s, forearmRight s, handLeft s, handRight s, thighLeft s, thighRight s] ++
  quadShapes s ++ [calfLeft s, calfRight s, footLeft s, footRight s]

/-- The scene description of `RealisticAvatarMesh` (group scaled by
`heightScale`, line 456). -/
def scene (s : AvatarSettings) : SceneDescription :=
  ⟨heightScale s, shapes s⟩

end RealisticAvatarMesh

/-! ## `TextureEnhancer` (TextureEnhancer.tsx lines 37-190)

The per-pixel body of `generateEnhancedTexture`.  The `Math.random()`
draw of the noise term and the `Math.sin(nx*20)*Math.cos(ny*15)*0.5+0.5`
vein pattern are passed in as parameters `rnd` and `veinPattern` (sine
and cosine have no exact rational form; every theorem below holds for
every realization of both).  Pixel values land in a `Uint8ClampedArray`;
we record the clamped value itself. -/

namespace TextureEnhancer

/-- The `hue2rgb` helper of the component's own `hslToRgb`
(lines 173-180). -/
def hue2rgb (p q t : ℚ) : ℚ :=
  let t := if t < 0 then t + 1 else t
  let t := if 1 < t then t - 1 else t
  if t < 1 / 6 then p + (q - p) * 6 * t
  else if t < 1 / 2 then q
  else if t < 2 / 3 then p + (q - p) * (2 / 3 - t) * 6
  else p

/-- `hslToRgb(h, s, l)` (lines 167-190): returns the rounded 0-255
channel triple. -/
def hslToRgb (h s l : ℚ) : ℚ × ℚ × ℚ :=
  if s = 0 then
    ((jsRound (l * 255) : ℤ), (jsRound (l * 255) : ℤ), (jsRound (l * 255) : ℤ))
  else
    let q := if l < 1 / 2 then l * (1 + s) else l + s - l * s
    let p := 2 * l - q
    ((jsRound (hue2rgb p q (h + 1 / 3) * 255) : ℤ),
     (jsRound (hue2rgb p q h * 255) : ℤ),
     (jsRound (hue2rgb p q (h - 1 / 3) * 255) : ℤ))

/-- The chest region test `ny > 0.3 && ny < 0.6 && Math.abs(nx - 0.5) < 0.2`
(line 78). -/
def chestRegion (nx ny : ℚ) : Prop := 0.3 < ny ∧ ny < 0.6 ∧ |nx - 0.5| < 0.2

/-- The abs region test `ny > 0.5 && ny < 0.8 && Math.abs(nx - 0.5) < 0.15`
(line 82). -/
def absRegion (nx ny : ℚ) : Prop := 0.5 < ny ∧ ny < 0.8 ∧ |nx - 0.5| < 0.15

/-- The arms region test `(nx < 0.2 || nx > 0.8) && ny > 0.2 && ny < 0.7`
(line 86). -/
def armsRegion (nx ny : ℚ) : Prop := (nx < 0.2 ∨ 0.8 < nx) ∧ 0.2 < ny ∧ ny < 0.7

instance (nx ny : ℚ) : Decidable (chestRegion nx ny) := by
  unfold chestRegion; infer_instance

instance (nx ny : ℚ) : Decidable (absRegion nx ny) := by
  unfold absRegion; infer_instance

instance (nx ny : ℚ) : Decidable (armsRegion nx ny) := by
  unfold armsRegion; infer_instance

/-- The `muscleDefinition` accumulator (lines 75-89): starts at 0 and is
gated on `settings.muscle > 30`; each succeeding region test ASSIGNS
(overwrites) the value rather than adding to it, so the last matching
region wins (chest factor 30, then abs factor 25, then arms factor 20). -/
def muscleDefinition (muscle muscleIntensity nx ny : ℚ) : ℚ :=
  if 30 < muscle then
    let md1 := if chestRegion nx ny then muscle / 100 * (muscleIntensity / 100) * 30 else 0
    let md2 := if absRegion nx ny then muscle / 100 * (muscleIntensity / 100) * 25 else md1
    if armsRegion nx ny then muscle / 100 * (muscleIntensity / 100) * 20 else md2
  else 0

/-- The `vascularDetail` term (lines 92-98): nonzero only when
`settings.muscle > 60 && settings.bodyFat < 15` and the vein pattern
exceeds 0.8. -/
def vascularDetail (muscle bodyFat vascularization veinPattern : ℚ) : ℚ :=
  if 60 < muscle ∧ bodyFat < 15 then
    if 0.8 < veinPattern then vascularization / 100 * 15 else 0
  else 0

/-- `Math.max(0, Math.min(255, x))` (lines 104-106). -/
def clamp255 (x : ℚ) : ℚ := max 0 (min 255 x)

/-- One RGBA pixel of the generated texture. -/
structure TexPixel where
  r : ℚ
  g : ℚ
  b : ℚ
  a : ℚ
deriving DecidableEq, Repr

/-- The per-pixel body of `generateEnhancedTexture` (lines 60-112) at
normalized coordinates `(nx, ny)`: base skin HSL from `skinTone`, noise
from the random draw `rnd` and the `skinDetail` tuning, region-gated
muscle darkening, gated vascular detail, body-fat lightening, then
per-channel clamping; alpha is the constant 255. -/
def generateEnhancedTexturePixel (muscle bodyFat skinTone : ℚ)
    (muscleIntensity skinDetail vascularization : ℚ)
    (nx ny rnd veinPattern : ℚ) : TexPixel :=
  let skinHue := skinTone / 100 * 30
  let skinSat := 40 + skinTone / 100 * 30
  let skinLight := 50 + skinTone / 100 * 30
  let hsl := hslToRgb (skinHue / 360) (skinSat / 100) (skinLight / 100)
  let noise := (rnd - 0.5) * (skinDetail / 100) * 20
  let md := muscleDefinition muscle muscleIntensity nx ny
  let vd := vascularDetail muscle bodyFat vascularization veinPattern
  let fatSoftening := bodyFat / 100 * 10
  ⟨clamp255 (hsl.1 + noise - md - vd + fatSoftening),
   clamp255 (hsl.2.1 + noise - md - vd + fatSoftening),
   clamp255 (hsl.2.2 + noise - md - vd + fatSoftening),
   255⟩

end TextureEnhancer

/-! ## `GLBUploader` file intake (`src/unnamed/part_001` lines 219-259) -/

namespace GLBUploader

/-- An uploaded file as the validator sees it: a name (as its character
sequence) and a size in bytes. -/
structure UploadFile where
  name : List Char
  size : ℕ
deriving DecidableEq, Repr

/-- `MAX_FILE_SIZE = 30 * 1024 * 1024` bytes (line 227). -/
def maxFileSize : ℕ := 30 * 1024 * 1024

/-- The extension rejection message (line 232). -/
def extensionErrorMsg : String := "Only .glb files are supported"

/-- The size rejection message (line 237, with the template argument
`MAX_FILE_SIZE / (1024 * 1024) = 30` filled in). -/
def sizeErrorMsg : String := "File size must be less than 30MB"

/-- The character sequence of the extension literal `.glb`. -/
def glbSuffix : List Char := ['.', 'g', 'l', 'b']

/-- `file.name.toLowerCase().endsWith('.glb')` (line 231), over the
character sequence of the name. -/
def nameEndsWithGlb (name : List Char) : Bool :=
  glbSuffix.isSuffixOf (name.map Char.toLower)

/-- `validateFile` (lines 229-241): reject unless the lower-cased name
ends with `.glb`; then reject if the size strictly exceeds
`MAX_FILE_SIZE`; otherwise accept (return `null`). -/
def validateFile (file : UploadFile) : Option String :=
  if ¬ (nameEndsWithGlb file.name = true) then some extensionErrorMsg
  else if maxFileSize < file.size then some sizeErrorMsg
  else none

/-- `handleFileSelect` (lines 251-259) acting on the `selectedFile`
state: on a validation error it returns early (state unchanged, upload
not started); on success it selects the file. -/
def handleFileSelect (selectedFile : Option UploadFile) (file : UploadFile) :
    Option UploadFile :=
  match validateFile file with
  | some _ => selectedFile
  | none => some file

end GLBUploader

/-! ## Theorems -/

/-- C4: the mesh builder is deterministic — structurally equal settings
produce structurally equal scene descriptions; `AvatarMesh.scene` is a
pure function of the settings record, with no randomness or hidden
state in any formula. -/
theorem C4_buildDeterministic :
    ∀ s t : AvatarSettings, s = t → AvatarMesh.scene s = AvatarMesh.scene t := by
  intro s t h
  rw [h]

theorem C4_buildDeterministic_witness :
    AvatarMesh.scene defaultAvatarSettings = AvatarMesh.scene defaultAvatarSettings :=
  C4_buildDeterministic defaultAvatarSettings defaultAvatarSettings rfl

/-- C6: a single-field update sets exactly the named field to the new
value and leaves every other field equal to its pre-update value, and a
partial multi-field merge leaves every field not named in the update
unchanged. -/
theorem C6_updateFrame :
    (∀ (s : AvatarSettings) (k : SettingKey) (v : k.Val),
      (updateSetting s k v).getField k = v ∧
      ∀ k' : SettingKey, k' ≠ k → (updateSetting s k v).getField k' = s.getField k') ∧
    (∀ (s : AvatarSettings) (u : SettingsPatch) (k : SettingKey),
      u.getField k = none → (updateMultipleSettings s u).getField k = s.getField k) := by
  constructor
  · intro s k v
    constructor
    · cases k <;> rfl
    · intro k' h
      cases k <;> cases k' <;> first | rfl | exact absurd rfl h
  · intro s u k h
    cases k <;>
      simp_all [updateMultipleSettings, SettingsPatch.getField, AvatarSettings.getField]

theorem C6_updateFrame_witness :
    (updateSetting defaultAvatarSettings SettingKey.height 200).getField SettingKey.height
        = 200 ∧
    (updateSetting defaultAvatarSettings SettingKey.height 200).getField SettingKey.muscle
        = defaultAvatarSettings.getField SettingKey.muscle ∧
    (updateMultipleSettings defaultAvatarSettings {}).getField SettingKey.muscle
        = defaultAvatarSettings.getField SettingKey.muscle :=
  ⟨(C6_updateFrame.1 defaultAvatarSettings SettingKey.height 200).1,
   (C6_updateFrame.1 defaultAvatarSettings SettingKey.height 200).2
     SettingKey.muscle (by decide),
   C6_updateFrame.2 defaultAvatarSettings {} SettingKey.muscle rfl⟩

/-- C7: the 2D fallback display derives its `heightScale` and
`muscleScale` by exactly the same formulas as the 3D mesh builder
(`height / 180` and `1 + (muscle - 50) * 0.004`), so the two renderings
agree numerically on these scale derivations. -/
theorem C7_fallbackScaleConsistency :
    ∀ s : AvatarSettings,
      Avatar2DFallback.heightScale s = AvatarMesh.heightScale s ∧
      Avatar2DFallback.muscleScale s = AvatarMesh.muscleScale s :=
  fun _ => ⟨rfl, rfl⟩

/-- C8: file-intake validation accepts a file iff its (lower-cased) name
ends with the `.glb` extension and its size is at most 30 MB
(30 × 1024 × 1024 bytes, a file of exactly 30 MB being accepted); on any
violation it returns one of the two descriptive validation errors and
`handleFileSelect` leaves the selection state unchanged (so no upload is
started). -/
theorem C8_fileValidation :
    ∀ (file : GLBUploader.UploadFile) (st : Option GLBUploader.UploadFile),
      (GLBUploader.validateFile file = none ↔
        (GLBUploader.nameEndsWithGlb file.name = true ∧
         file.size ≤ GLBUploader.maxFileSize)) ∧
      (∀ e, GLBUploader.validateFile file = some e →
        (e = GLBUploader.extensionErrorMsg ∨ e = GLBUploader.sizeErrorMsg) ∧
        GLBUploader.handleFileSelect st file = st) ∧
      (GLBUploader.validateFile file = none →
        GLBUploader.handleFileSelect st file = some file) ∧
      GLBUploader.validateFile ⟨"model.glb".toList, 30 * 1024 * 1024⟩ = none ∧
      GLBUploader.validateFile ⟨"model.glb".toList, 30 * 1024 * 1024 + 1⟩
        = some GLBUploader.sizeErrorMsg ∧
      GLBUploader.validateFile ⟨"model.gltf".toList, 0⟩
        = some GLBUploader.extensionErrorMsg := by
  intro file st
  refine ⟨?_, ?_, ?_, by decide, by decide, by decide⟩
  · unfold GLBUploader.validateFile
    split_ifs with h1 h2 <;> simp_all
  · intro e he
    constructor
    · unfold GLBUploader.validateFile at he
      split_ifs at he <;> simp_all
    · unfold GLBUploader.handleFileSelect
      rw [he]
  · intro he
    unfold GLBUploader.handleFileSelect
    rw [he]

theorem C8_fileValidation_witness :
    GLBUploader.handleFileSelect none ⟨"model.gltf".toList, 0⟩ = none :=
  ((C8_fileValidation ⟨"model.gltf".toList, 0⟩ none).2.1
    GLBUploader.extensionErrorMsg (by decide)).2

/-- C9: for a `hairStyle` outside «1, 2, 3, 4» the mesh builder emits no
hair shape while every other body-part shape is emitted exactly as
usual (no non-hair shape reads `hairStyle`); exactly one hair variant is
emitted when `hairStyle` is one of 1, 2, 3, 4. -/
theorem C9_hairStyleShapes :
    ∀ s : AvatarSettings,
      AvatarMesh.shapes s =
        AvatarMesh.preHairShapes s ++ AvatarMesh.hairShapes s ++ AvatarMesh.postHairShapes s ∧
      ((s.hairStyle ≠ 1 ∧ s.hairStyle ≠ 2 ∧ s.hairStyle ≠ 3 ∧ s.hairStyle ≠ 4) →
        AvatarMesh.hairShapes s = []) ∧
      ((s.hairStyle = 1 ∨ s.hairStyle = 2 ∨ s.hairStyle = 3 ∨ s.hairStyle = 4) →
        (AvatarMesh.hairShapes s).length = 1) ∧
      (∀ k : ℤ,
        AvatarMesh.preHairShapes (updateSetting s SettingKey.hairStyle k) =
          AvatarMesh.preHairShapes s ∧
        AvatarMesh.postHairShapes (updateSetting s SettingKey.hairStyle k) =
          AvatarMesh.postHairShapes s) := by
  intro s
  refine ⟨rfl, ?_, ?_, fun k => ⟨rfl, rfl⟩⟩
  · rintro ⟨h1, h2, h3, h4⟩
    simp [AvatarMesh.hairShapes, h1, h2, h3, h4]
  · rintro (h | h | h | h) <;> simp [AvatarMesh.hairShapes, h]

theorem C9_hairStyleShapes_witness :
    AvatarMesh.hairShapes (updateSetting defaultAvatarSettings SettingKey.hairStyle 5) = [] ∧
    (AvatarMesh.hairShapes defaultAvatarSettings).length = 1 :=
  ⟨(C9_hairStyleShapes (updateSetting defaultAvatarSettings SettingKey.hairStyle 5)).2.1
     (by decide),
   (C9_hairStyleShapes defaultAvatarSettings).2.2.1 (by decide)⟩

/-- C10: in the texture synthesizer the three muscle-definition region
assignments overwrite rather than accumulate: a pixel lying in both the
chest region and the abs region receives exactly the abs coefficient
(factor 25), not the chest coefficient and not their sum; and the arms
region is disjoint from both, so at most one region's coefficient ever
applies. -/
theorem C10_regionOverwrite :
    ∀ muscle muscleIntensity nx ny : ℚ,
      (30 < muscle → TextureEnhancer.chestRegion nx ny → TextureEnhancer.absRegion nx ny →
        TextureEnhancer.muscleDefinition muscle muscleIntensity nx ny =
          muscle / 100 * (muscleIntensity / 100) * 25) ∧
      (TextureEnhancer.armsRegion nx ny →
        ¬ TextureEnhancer.chestRegion nx ny ∧ ¬ TextureEnhancer.absRegion nx ny) := by
  intro muscle muscleIntensity nx ny
  constructor
  · intro hm hc ha
    have hnx := abs_lt.mp hc.2.2
    have harm : ¬ TextureEnhancer.armsRegion nx ny := by
      rintro ⟨hx | hx, -, -⟩ <;> [linarith [hnx.1]; linarith [hnx.2]]
    simp only [TextureEnhancer.muscleDefinition, if_pos hm, if_pos ha, if_neg harm]
  · rintro ⟨hx, -, -⟩
    constructor <;> rintro ⟨-, -, hc⟩ <;> have := abs_lt.mp hc <;>
      rcases hx with h | h <;> norm_num at this ⊢ <;> linarith [this.1, this.2]

theorem C10_regionOverwrite_witness :
    TextureEnhancer.muscleDefinition 50 50 (1 / 2) (11 / 20) =
      50 / 100 * (50 / 100 : ℚ) * 25 :=
  (C10_regionOverwrite 50 50 (1 / 2) (11 / 20)).1 (by norm_num)
    (by unfold TextureEnhancer.chestRegion; norm_num)
    (by unfold TextureEnhancer.absRegion; norm_num)

/-- All four channel constraints of one synthesized pixel: R, G, B in
`[0, 255]` and alpha equal to 255. -/
def texPixelBounded (p : TextureEnhancer.TexPixel) : Prop :=
  0 ≤ p.r ∧ p.r ≤ 255 ∧ 0 ≤ p.g ∧ p.g ≤ 255 ∧ 0 ≤ p.b ∧ p.b ≤ 255 ∧ p.a = 255

theorem clamp255_bounds (x : ℚ) :
    0 ≤ TextureEnhancer.clamp255 x ∧ TextureEnhancer.clamp255 x ≤ 255 :=
  ⟨le_max_left 0 _, max_le (by norm_num) (min_le_left _ _)⟩

/-- C5: every synthesized pixel has R, G, B channel values in `[0, 255]`
after clamping and alpha exactly 255, for all inputs, tunings and noise
realizations; and the vascular-detail contribution is exactly zero
whenever `muscle ≤ 60` or `bodyFat ≥ 15`, for every realization of the
noise and vein-pattern terms. -/
theorem C5_synthesizeBounds :
    ∀ muscle bodyFat skinTone muscleIntensity skinDetail vascularization
      nx ny rnd veinPattern : ℚ,
      texPixelBounded (TextureEnhancer.generateEnhancedTexturePixel muscle bodyFat skinTone
        muscleIntensity skinDetail vascularization nx ny rnd veinPattern) ∧
      ((muscle ≤ 60 ∨ 15 ≤ bodyFat) →
        TextureEnhancer.vascularDetail muscle bodyFat vascularization veinPattern = 0) := by
  intro muscle bodyFat skinTone muscleIntensity skinDetail vascularization nx ny rnd veinPattern
  constructor
  · unfold texPixelBounded TextureEnhancer.generateEnhancedTexturePixel
    exact ⟨(clamp255_bounds _).1, (clamp255_bounds _).2, (clamp255_bounds _).1,
      (clamp255_bounds _).2, (clamp255_bounds _).1, (clamp255_bounds _).2, rfl⟩
  · intro h
    unfold TextureEnhancer.vascularDetail
    rw [if_neg]
    rintro ⟨h1, h2⟩
    rcases h with h | h <;> linarith

theorem C5_synthesizeBounds_witness :
    texPixelBounded (TextureEnhancer.generateEnhancedTexturePixel 50 20 50 50 70 30
      0 0 (1 / 2) 0) ∧
    ((50 : ℚ) ≤ 60 ∨ (15 : ℚ) ≤ 20) ∧
    TextureEnhancer.vascularDetail 50 20 30 0 = 0 :=
  ⟨(C5_synthesizeBounds 50 20 50 50 70 30 0 0 (1 / 2) 0).1,
   Or.inl (by norm_num),
   (C5_synthesizeBounds 50 20 50 50 70 30 0 0 (1 / 2) 0).2 (Or.inl (by norm_num))⟩

/-- C3: for every in-range settings record, the two chest-highlight
spheres are present in the built scene iff `muscle > 30` (absent when
the muscle slider is moved to 30, present at 31), the ab-definition
boxes are present iff `muscle > 40` and `bodyFat < 25`, and these
conditional shapes use the skin color with all channels multiplied by a
fixed factor (0.95 for the chest, 0.92 for the abs) lying in
`[0.92, 0.96]`. -/
theorem C3_muscleDefinitionThresholds :
    ∀ s : AvatarSettings, inRange s →
      ((AvatarMesh.chestShapes s).length = 2 ↔ 30 < s.muscle) ∧
      (AvatarMesh.chestShapes s = [] ↔ s.muscle ≤ 30) ∧
      ((AvatarMesh.absShapes s).length = 2 ↔ 40 < s.muscle ∧ s.bodyFat < 25) ∧
      (AvatarMesh.absShapes s = [] ↔ ¬ (40 < s.muscle ∧ s.bodyFat < 25)) ∧
      (∀ sh ∈ AvatarMesh.chestShapes s,
        sh ∈ AvatarMesh.shapes s ∧
        sh.color = (AvatarMesh.skinColor s).multiplyScalar 0.95) ∧
      (∀ sh ∈ AvatarMesh.absShapes s,
        sh ∈ AvatarMesh.shapes s ∧
        sh.color = (AvatarMesh.skinColor s).multiplyScalar 0.92) ∧
      ((0.92 : ℚ) ≤ 0.95 ∧ (0.95 : ℚ) ≤ 0.96 ∧ (0.92 : ℚ) ≤ 0.92 ∧ (0.92 : ℚ) ≤ 0.96) ∧
      AvatarMesh.chestShapes (updateSetting s SettingKey.muscle 30) = [] ∧
      (AvatarMesh.chestShapes (updateSetting s SettingKey.muscle 31)).length = 2 := by
  intro s _
  refine ⟨?_, ?_, ?_, ?_, ?_, ?_, by norm_num, ?_, ?_⟩
  · unfold AvatarMesh.chestShapes; split_ifs with h <;> simp [h]
  · unfold AvatarMesh.chestShapes; split_ifs with h <;> simp <;> omega
  · unfold AvatarMesh.absShapes; split_ifs with h <;> simp [h]
  · unfold AvatarMesh.absShapes; split_ifs with h <;> simp [h]
  · intro sh hsh
    by_cases h : 30 < s.muscle
    · rw [AvatarMesh.chestShapes, if_pos h] at hsh
      simp only [List.mem_cons, List.not_mem_nil, or_false] at hsh
      rcases hsh with rfl | rfl <;>
        exact ⟨by simp [AvatarMesh.shapes, AvatarMesh.postHairShapes,
          AvatarMesh.chestShapes, h], rfl⟩
    · rw [AvatarMesh.chestShapes, if_neg h] at hsh
      simp at hsh
  · intro sh hsh
    by_cases h : 40 < s.muscle ∧ s.bodyFat < 25
    · rw [AvatarMesh.absShapes, if_pos h] at hsh
      simp only [List.mem_cons, List.not_mem_nil, or_false] at hsh
      rcases hsh with rfl | rfl <;>
        exact ⟨by simp [AvatarMesh.shapes, AvatarMesh.postHairShapes,
          AvatarMesh.absShapes, h], rfl⟩
    · rw [AvatarMesh.absShapes, if_neg h] at hsh
      simp at hsh
  · norm_num [AvatarMesh.chestShapes, updateSetting]
  · norm_num [AvatarMesh.chestShapes, updateSetting]

theorem C3_muscleDefinitionThresholds_witness :
    inRange defaultAvatarSettings ∧
    (AvatarMesh.chestShapes defaultAvatarSettings).length = 2 ∧
    AvatarMesh.chestShapes
      (updateSetting defaultAvatarSettings SettingKey.muscle 30) = [] :=
  ⟨by decide,
   ((C3_muscleDefinitionThresholds defaultAvatarSettings (by decide)).1).mpr (by decide),
   (C3_muscleDefinitionThresholds defaultAvatarSettings (by decide)).2.2.2.2.2.2.2.1⟩

/-- C1 counterexample: applying the `petite-female` body preset to the
(in-range) default settings yields `height = 155`, outside the declared
range `[170, 210]` — so preset application does not preserve the
declared ranges. -/
theorem C1_presetHeightRange_counterexample :
    inRange defaultAvatarSettings ∧
    petiteFemalePatch ∈ presetCatalog ∧
    (applyPreset defaultAvatarSettings petiteFemalePatch).height = 155 ∧
    ¬ inRange (applyPreset defaultAvatarSettings petiteFemalePatch) := by
  decide

/-- C1 (amended): starting from an in-range state, a single-slider
update (with the slider's own UI bounds) keeps every field — `height`
included — in its declared range; preset application and ML-suggestion
merges keep every field except `height` in its declared range, and keep
`height` only within `[155, 210]` (presets store heights as low as 155;
rounded ML height suggestions lie in `[165, 195]`). -/
theorem C1_updateRangeInvariant_amended :
    (∀ (s : AvatarSettings) (k : SettingKey) (v : k.Val),
      inRange s → validSliderValue k v → inRange (updateSetting s k v)) ∧
    (∀ (s : AvatarSettings), ∀ p ∈ presetCatalog,
      inRangeExceptHeight (applyPreset s p) ∧
      155 ≤ (applyPreset s p).height ∧ (applyPreset s p).height ≤ 210) ∧
    (∀ (s : AvatarSettings) (rEye rNose rMouth rFace rHeight rSkin rMuscle : ℚ),
      inRange s →
      0 ≤ rEye → rEye < 1 → 0 ≤ rNose → rNose < 1 → 0 ≤ rMouth → rMouth < 1 →
      0 ≤ rFace → rFace < 1 → 0 ≤ rHeight → rHeight < 1 →
      0 ≤ rSkin → rSkin < 1 → 0 ≤ rMuscle → rMuscle < 1 →
      inRangeExceptHeight (applyMLResults s rEye rNose rMouth rFace rHeight rSkin rMuscle) ∧
      165 ≤ (applyMLResults s rEye rNose rMouth rFace rHeight rSkin rMuscle).height ∧
      (applyMLResults s rEye rNose rMouth rFace rHeight rSkin rMuscle).height ≤ 195) := by
  refine ⟨?_, ?_, ?_⟩
  · intro s k v hs hv
    unfold inRange at hs ⊢
    cases k <;>
      simp only [updateSetting, validSliderValue, intBetween, isHairStyleId] at hv ⊢ <;>
      omega
  · intro s p hp
    fin_cases hp <;>
      simp only [applyPreset, updateMultipleSettings, fullNumericPatch,
        Option.getD_some, inRangeExceptHeight] <;> decide
  · intro s rEye rNose rMouth rFace rHeight rSkin rMuscle hs
    intro hEye0 hEye1 hNose0 hNose1 hMouth0 hMouth1 hFace0 hFace1
    intro hHeight0 hHeight1 hSkin0 hSkin1 hMuscle0 hMuscle1
    have hEye : (30 : ℤ) ≤ jsRound (rEye * 40 + 30) ∧ jsRound (rEye * 40 + 30) ≤ 70 :=
      jsRound_bounds (by push_cast; linarith) (by push_cast; linarith)
    have hNose : (30 : ℤ) ≤ jsRound (rNose * 40 + 30) ∧ jsRound (rNose * 40 + 30) ≤ 70 :=
      jsRound_bounds (by push_cast; linarith) (by push_cast; linarith)
    have hMouth : (30 : ℤ) ≤ jsRound (rMouth * 40 + 30) ∧ jsRound (rMouth * 40 + 30) ≤ 70 :=
      jsRound_bounds (by push_cast; linarith) (by push_cast; linarith)
    have hFace : (20 : ℤ) ≤ jsRound (rFace * 60 + 20) ∧ jsRound (rFace * 60 + 20) ≤ 80 :=
      jsRound_bounds (by push_cast; linarith) (by push_cast; linarith)
    have hHeight : (165 : ℤ) ≤ jsRound (rHeight * 30 + 165) ∧
        jsRound (rHeight * 30 + 165) ≤ 195 :=
      jsRound_bounds (by push_cast; linarith) (by push_cast; linarith)
    have hSkin : (10 : ℤ) ≤ jsRound (rSkin * 80 + 10) ∧ jsRound (rSkin * 80 + 10) ≤ 90 :=
      jsRound_bounds (by push_cast; linarith) (by push_cast; linarith)
    have hMuscle : (20 : ℤ) ≤ jsRound (rMuscle * 60 + 20) ∧
        jsRound (rMuscle * 60 + 20) ≤ 80 :=
      jsRound_bounds (by push_cast; linarith) (by push_cast; linarith)
    unfold inRange at hs
    unfold applyMLResults updateMultipleSettings mlPatch inRangeExceptHeight
    simp only [Option.getD_some, Option.getD_none]
    omega

theorem C1_updateRangeInvariant_amended_witness :
    inRange (updateSetting defaultAvatarSettings SettingKey.height 200) ∧
    inRangeExceptHeight (applyPreset defaultAvatarSettings petiteFemalePatch) ∧
    155 ≤ (applyPreset defaultAvatarSettings petiteFemalePatch).height ∧
    inRangeExceptHeight (applyMLResults defaultAvatarSettings
      (1 / 2) (1 / 2) (1 / 2) (1 / 2) (1 / 2) (1 / 2) (1 / 2)) :=
  ⟨C1_updateRangeInvariant_amended.1 defaultAvatarSettings SettingKey.height 200
     (by decide) (by decide),
   (C1_updateRangeInvariant_amended.2.1 defaultAvatarSettings petiteFemalePatch
     (by decide)).1,
   (C1_updateRangeInvariant_amended.2.1 defaultAvatarSettings petiteFemalePatch
     (by decide)).2.1,
   (C1_updateRangeInvariant_amended.2.2 defaultAvatarSettings
     (1 / 2) (1 / 2) (1 / 2) (1 / 2) (1 / 2) (1 / 2) (1 / 2) (by decide)
     (by norm_num) (by norm_num) (by norm_num) (by norm_num) (by norm_num) (by norm_num)
     (by norm_num) (by norm_num) (by norm_num) (by norm_num) (by norm_num) (by norm_num)
     (by norm_num) (by norm_num)).1⟩

/-- C2 (code bug): the gender table of `RealisticAvatarMesh` does carry
the claimed four-component tuple «shoulderBonus, waistReduction, muscle,
hipReduction» in a fixed 3-entry table, and the written torso and hips
dimension expressions apply `shoulderBonus`, `waistReduction` and
`hipReduction` multiplicatively exactly as the claim says — the
discarded hip dimension would differ between male and female.  But the
source closes those two dimension arrays before their trailing segment
arguments, so each JSX brace holds a comma expression that evaluates
and discards the dimension vector: the geometry receives the single
remnant value (16 for the hips, π for the torso), the emitted torso and
hips shapes are invariant under every gender change, and `hipReduction`
affects no emitted shape.  Only the `muscle` and `shoulderBonus`
components still reach emitted shapes (chest radii, arm positions). -/
theorem C2_hipReductionDiscarded :
    (RealisticAvatarMesh.genderMultipliers Gender.male =
        ⟨1.2, 0.9, 1.1, 0.9⟩ ∧
     RealisticAvatarMesh.genderMultipliers Gender.female =
        ⟨0.9, 0.7, 0.8, 1.1⟩ ∧
     RealisticAvatarMesh.genderMultipliers Gender.nonBinary =
        ⟨1.0, 0.8, 0.95, 1.0⟩) ∧
    (∀ s : AvatarSettings,
      RealisticAvatarMesh.hipsDimsDiscarded s =
        [0.14 * RealisticAvatarMesh.waistScale s * RealisticAvatarMesh.bodyFatScale s *
          (RealisticAvatarMesh.genderMultipliers s.gender).waistReduction,
         0.16 * RealisticAvatarMesh.bodyFatScale s *
          (RealisticAvatarMesh.genderMultipliers s.gender).hipReduction,
         0.10 * RealisticAvatarMesh.bodyFatScale s]) ∧
    RealisticAvatarMesh.hipsDimsDiscarded
        (updateSetting defaultAvatarSettings SettingKey.gender Gender.male) ≠
      RealisticAvatarMesh.hipsDimsDiscarded
        (updateSetting defaultAvatarSettings SettingKey.gender Gender.female) ∧
    (∀ (s : AvatarSettings) (g : Gender),
      RealisticAvatarMesh.hips (updateSetting s SettingKey.gender g) =
        RealisticAvatarMesh.hips s ∧
      RealisticAvatarMesh.torso (updateSetting s SettingKey.gender g) =
        RealisticAvatarMesh.torso s) ∧
    (RealisticAvatarMesh.hips defaultAvatarSettings).args = [aq 16] ∧
    (RealisticAvatarMesh.torso defaultAvatarSettings).args = [RArg.piTimes 1] ∧
    RealisticAvatarMesh.hips defaultAvatarSettings ∈
      RealisticAvatarMesh.shapes defaultAvatarSettings ∧
    RealisticAvatarMesh.torso defaultAvatarSettings ∈
      RealisticAvatarMesh.shapes defaultAvatarSettings ∧
    (∀ s : AvatarSettings,
      (RealisticAvatarMesh.chestLeft s).args.head? =
        some (aq (0.05 * RealisticAvatarMesh.muscleScale s *
          (RealisticAvatarMesh.genderMultipliers s.gender).muscle)) ∧
      (RealisticAvatarMesh.upperArmLeft s).pos =
        (-0.22 * RealisticAvatarMesh.shoulderScale s *
          (RealisticAvatarMesh.genderMultipliers s.gender).shoulderBonus, 1.15, 0)) := by
  refine ⟨⟨rfl, rfl, rfl⟩, fun s => rfl, ?_, fun s g => ⟨rfl, rfl⟩, rfl, rfl, ?_, ?_,
    fun s => ⟨rfl, rfl⟩⟩
  · intro h
    simp only [RealisticAvatarMesh.hipsDimsDiscarded, RealisticAvatarMesh.genderMods,
      RealisticAvatarMesh.genderMultipliers, RealisticAvatarMesh.waistScale,
      RealisticAvatarMesh.bodyFatScale, updateSetting, defaultAvatarSettings,
      List.cons.injEq] at h
    norm_num at h
  · simp [RealisticAvatarMesh.shapes]
  · simp [RealisticAvatarMesh.shapes]
